import Mathlib

/-!
Shallow embedding of the `fsru_timeline` repository
(`src/scripts/main.py` and `src/scripts/main_deepseek.py`).

Pure helper functions of the scripts are translated into Lean functions;
the Streamlit session state is made explicit as a state-passing step
function.  Python floats are modelled as real numbers; Python exceptions
as `Except Unit` / `Option` results.
-/

namespace FsruTimeline

/-! ### Python `datetime` and `strptime` model

`datetime.strptime` is library code that is not part of the repository.
Modelled from the spec: the timestamp grammar is the fixed-width
`YYYYMMDDTHHMMSSZ` (respectively `YYYYmmddHHMMSS<fraction>Z` after the
`T`-removal in the second variant), each field validated the way the
`datetime` constructor validates it (month 1–12, day valid for the
month/year, hour 0–23, minute and second 0–59, year at least 1). -/

/-- Result of a successful `datetime.strptime` call. -/
structure PyDateTime where
  year : Nat
  month : Nat
  day : Nat
  hour : Nat
  minute : Nat
  second : Nat
  microsecond : Nat
deriving DecidableEq

/-- Gregorian leap-year rule, as used by Python's `datetime`. -/
def isLeapYear (y : Nat) : Bool :=
  (y % 4 == 0 && y % 100 != 0) || (y % 400 == 0)

/-- Number of days of a month, as validated by Python's `datetime`. -/
def daysInMonth (y m : Nat) : Nat :=
  if m == 2 then (if isLeapYear y then 29 else 28)
  else if m == 4 || m == 6 || m == 9 || m == 11 then 30
  else 31

/-- Value of a list of decimal digit characters. -/
def digitsToNat (cs : List Char) : Nat :=
  cs.foldl (fun acc c => acc * 10 + (c.toNat - '0'.toNat)) 0

/-- Field validation performed by the `datetime` constructor. -/
def validDate (y mo d h mi s : Nat) : Bool :=
  1 ≤ y && 1 ≤ mo && mo ≤ 12 && 1 ≤ d && d ≤ daysInMonth y mo &&
    h ≤ 23 && mi ≤ 59 && s ≤ 59

/-- `datetime.strptime time_str "%Y%m%dT%H%M%SZ"` on the stripped
remainder, as called by `get_datetime_from_filename` in
`src/scripts/main.py`; `none` models the `ValueError` it raises. -/
def parseTimestampMain (s : String) : Option PyDateTime :=
  match s.toList with
  | [y1, y2, y3, y4, m1, m2, d1, d2, t, h1, h2, n1, n2, s1, s2, z] =>
    if ([y1, y2, y3, y4, m1, m2, d1, d2, h1, h2, n1, n2, s1, s2].all Char.isDigit)
        && t == 'T' && z == 'Z' then
      let y := digitsToNat [y1, y2, y3, y4]
      let mo := digitsToNat [m1, m2]
      let d := digitsToNat [d1, d2]
      let h := digitsToNat [h1, h2]
      let mi := digitsToNat [n1, n2]
      let sec := digitsToNat [s1, s2]
      if validDate y mo d h mi sec then some ⟨y, mo, d, h, mi, sec, 0⟩ else none
    else none
  | _ => none

/-- The `%f` directive followed by the literal `Z`: one to six fraction
digits, zero-padded on the right to microseconds, then exactly `Z`. -/
def parseFracZ (cs : List Char) : Option Nat :=
  let digs := cs.takeWhile Char.isDigit
  let rest := cs.drop digs.length
  if 1 ≤ digs.length && digs.length ≤ 6 && rest == ['Z'] then
    some (digitsToNat digs * 10 ^ (6 - digs.length))
  else none

/-- `datetime.strptime ts_str "%Y%m%d%H%M%S%fZ"` as called by
`get_timestamp_from_filename` in `src/scripts/main_deepseek.py`;
`none` models the raised `ValueError`. -/
def parseTimestampDS (s : String) : Option PyDateTime :=
  let cs := s.toList
  let date := cs.take 14
  let rest := cs.drop 14
  if date.length == 14 && date.all Char.isDigit then
    let y := digitsToNat (date.take 4)
    let mo := digitsToNat ((date.drop 4).take 2)
    let d := digitsToNat ((date.drop 6).take 2)
    let h := digitsToNat ((date.drop 8).take 2)
    let mi := digitsToNat ((date.drop 10).take 2)
    let sec := digitsToNat ((date.drop 12).take 2)
    match parseFracZ rest with
    | some usec =>
      if validDate y mo d h mi sec then some ⟨y, mo, d, h, mi, sec, usec⟩ else none
    | none => none
  else none

/-! ### Filename helpers -/

/-- `os.path.basename`: the part of the path after the last (forward or
backward) slash.  Modelled from the spec: `os.path` is library code not
in the repository. -/
def basename (p : String) : String :=
  String.mk (p.toList.foldl (fun acc c => if c == '/' || c == '\\' then [] else acc ++ [c]) [])

/-- The slice `filename[len "vessel_data_" : -len ".json"]` of the
basename, i.e. `filename[12:-5]`, from `get_datetime_from_filename`
in `src/scripts/main.py`. -/
def stripFixed (file_path : String) : String :=
  let cs := (basename file_path).toList
  String.mk ((cs.drop 12).take (cs.length - 17))

/-- `get_datetime_from_filename` from `src/scripts/main.py`: strip the
fixed leading and trailing parts of the basename and parse the
remainder; the `ValueError` raised by `strptime` on a mismatch is the
`Except.error` case and propagates to the caller. -/
def get_datetime_from_filename (file_path : String) : Except Unit PyDateTime :=
  match parseTimestampMain (stripFixed file_path) with
  | some dt => Except.ok dt
  | none => Except.error ()

/-- Python `s.split '_'` last element: the part after the last underscore. -/
def afterLastUnderscore (s : String) : String :=
  String.mk (s.toList.foldl (fun acc c => if c == '_' then [] else acc ++ [c]) [])

/-- Python `s.split '.'` first element: the part before the first dot. -/
def beforeFirstDot (s : String) : String :=
  String.mk (s.toList.takeWhile (fun c => c != '.'))

/-- Python `s.replace "T" ""`: drop every `T`. -/
def removeTs (s : String) : String :=
  String.mk (s.toList.filter (fun c => c != 'T'))

/-- `get_timestamp_from_filename` from `src/scripts/main_deepseek.py`.
The surrounding `try`/`except` returns `datetime.now()` on any parse
failure, so the ambient current time is an explicit argument. -/
def get_timestamp_from_filename (now : PyDateTime) (filename : String) : PyDateTime :=
  let ts := removeTs (beforeFirstDot (afterLastUnderscore (basename filename)))
  match parseTimestampDS ts with
  | some dt => dt
  | none => now

/-! ### Ordering of snapshots -/

/-- Order-embedding of a validated `PyDateTime` into `Nat`; Python
compares datetimes lexicographically by field, which on field values in
their validated ranges coincides with comparing this key. -/
def dtKey (dt : PyDateTime) : Nat :=
  ((((((dt.year * 100 + dt.month) * 100 + dt.day) * 100 + dt.hour) * 100 +
      dt.minute) * 100 + dt.second) * 1000000) + dt.microsecond

/-- The comparison used by `timeline_files.sort` in `src/scripts/main.py`:
by the datetime component only (`key=lambda x: x[0]`). -/
def timelineLe (a b : PyDateTime × String) : Prop :=
  dtKey a.1 ≤ dtKey b.1

instance : DecidableRel timelineLe :=
  fun _ _ => Nat.decLe _ _

instance : IsTotal (PyDateTime × String) timelineLe :=
  ⟨fun _ _ => Nat.le_total _ _⟩

instance : IsTrans (PyDateTime × String) timelineLe :=
  ⟨fun _ _ _ => Nat.le_trans⟩

/-- Steps 1–2 of `main` in `src/scripts/main.py`: pair every discovered
file with its parsed datetime (any `ValueError` from parsing aborts the
whole listing), then `timeline_files.sort(key=lambda x: x[0])`.
Python's `list.sort` is stable, and a stable sort by a key is exactly
insertion sort with the non-strict key comparison. -/
def mainTimeline (file_paths : List String) : Except Unit (List (PyDateTime × String)) := do
  let timeline_files ← file_paths.mapM (fun path => do
    let dt ← get_datetime_from_filename path
    pure (dt, path))
  pure (List.insertionSort timelineLe timeline_files)

/-- Python string comparison: lexicographic by code point, a proper
leading part comparing below the longer string. -/
def charListLeB : List Char → List Char → Bool
  | [], _ => true
  | _ :: _, [] => false
  | c :: cs, d :: ds => if c = d then charListLeB cs ds else decide (c < d)

/-- Python `a <= b` on strings. -/
def strLe (a b : String) : Prop := charListLeB a.toList b.toList = true

instance : DecidableRel strLe :=
  fun a b => by unfold strLe; infer_instance

/-- `DATA_FILES = sorted(glob.glob(...))` from
`src/scripts/main_deepseek.py`: the discovered paths sorted as strings. -/
def dataFiles (paths : List String) : List String :=
  List.insertionSort strLe paths

/-! ### JSON values and the two snapshot loaders

A parsed JSON document; a file whose `json.load` raises (invalid JSON,
unreadable file) is modelled as the `none` input of a loader. -/

/-- A Python value produced by `json.load`. -/
inductive JsonVal where
  | null : JsonVal
  | bool (b : Bool) : JsonVal
  | num (q : ℚ) : JsonVal
  | str (s : String) : JsonVal
  | arr (xs : List JsonVal) : JsonVal
  | obj (fields : List (String × JsonVal)) : JsonVal

/-- Python `==` between a value and a string literal. -/
def isStrEq (v : JsonVal) (s : String) : Bool :=
  match v with
  | .str t => t == s
  | _ => false

/-- Does the character list start with the given character list? -/
def startsWithChars : List Char → List Char → Bool
  | [], _ => true
  | _ :: _, [] => false
  | a :: as, b :: bs => a == b && startsWithChars as bs

/-- Is the first character list a contiguous part of the second? -/
def hasSubChars (n : List Char) : List Char → Bool
  | [] => n.isEmpty
  | c :: rest => startsWithChars n (c :: rest) || hasSubChars n rest

/-- Python membership test `key in v`: key lookup on a dict, element
equality on a list, substring test on a string, `TypeError` otherwise. -/
def pyIn (key : String) (v : JsonVal) : Except Unit Bool :=
  match v with
  | .obj fields => .ok (fields.any (fun p => p.1 == key))
  | .arr xs => .ok (xs.any (fun x => isStrEq x key))
  | .str s => .ok (hasSubChars key.toList s.toList)
  | _ => .error ()

/-- Last binding of a key in a JSON object, as in a Python dict built by
`json.load` (a repeated key keeps its last value). -/
def objGetLast (fields : List (String × JsonVal)) (key : String) : Option JsonVal :=
  match fields.reverse.find? (fun p => p.1 == key) with
  | some p => some p.2
  | none => none

/-- Python subscript `v[key]` with a string key: `KeyError` on a dict
without the key, `TypeError` on anything that is not a dict. -/
def pyGetItem (v : JsonVal) (key : String) : Except Unit JsonVal :=
  match v with
  | .obj fields =>
    match objGetLast fields key with
    | some w => .ok w
    | none => .error ()
  | _ => .error ()

/-- `load_vessel_data` from `src/scripts/main.py`:
`json.load` then `data["data"]["vessels"]`, with no exception handling —
every failure (including a parse failure, the `none` input) escapes to
the caller. -/
def load_vessel_data (j : Option JsonVal) : Except Unit JsonVal :=
  match j with
  | none => .error ()
  | some data => do
    let d ← pyGetItem data "data"
    pyGetItem d "vessels"

/-- The Python dict literal `{'vessels': []}`. -/
def emptyVessels : JsonVal := .obj [("vessels", .arr [])]

/-- The `try` body of `load_vessel_data` in
`src/scripts/main_deepseek.py`:
`if 'data' in data and 'vessels' in data['data']: return data['data']`,
`elif 'vessels' in data: return data`, `return {'vessels': []}`. -/
def loadBodyDS (data : JsonVal) : Except Unit JsonVal := do
  let c1 ← pyIn "data" data
  if c1 then
    let d ← pyGetItem data "data"
    let c2 ← pyIn "vessels" d
    if c2 then
      return d
    else
      let c3 ← pyIn "vessels" data
      if c3 then return data else return emptyVessels
  else
    let c3 ← pyIn "vessels" data
    if c3 then return data else return emptyVessels

/-- `load_vessel_data` from `src/scripts/main_deepseek.py`: the body
above inside `try`/`except`, every exception (including a `json.load`
parse failure, the `none` input) caught and replaced by `{'vessels': []}`. -/
def load_vessel_data_ds (j : Option JsonVal) : JsonVal :=
  match j with
  | none => emptyVessels
  | some data =>
    match loadBodyDS data with
    | .ok r => r
    | .error _ => emptyVessels

/-- Key lookup with a Boolean answer, matching the `pyIn` check on a dict. -/
def objHasKey (fields : List (String × JsonVal)) (key : String) : Bool :=
  fields.any (fun p => p.1 == key)

/-! ### Geo-distance: `haversine_distance` from `src/scripts/main.py`

Python floats are modelled as real numbers. -/

/-- Python `math.radians`. -/
noncomputable def radians (x : ℝ) : ℝ := x * (Real.pi / 180)

/-- The argument handed to `math.sqrt` inside `haversine_distance`
(the variable `a` of the source), after the degree-to-radian
conversion of all four inputs. -/
noncomputable def haversineA (lat1 lon1 lat2 lon2 : ℝ) : ℝ :=
  let rlat1 := radians lat1
  let rlon1 := radians lon1
  let rlat2 := radians lat2
  let rlon2 := radians lon2
  let dlat := rlat2 - rlat1
  let dlon := rlon2 - rlon1
  Real.sin (dlat / 2) ^ 2 + Real.cos rlat1 * Real.cos rlat2 * Real.sin (dlon / 2) ^ 2

/-- `haversine_distance` from `src/scripts/main.py`:
`c = 2 * asin(sqrt(a))`, `r = 3958.8`, result `c * r`. -/
noncomputable def haversine_distance (lat1 lon1 lat2 lon2 : ℝ) : ℝ :=
  let a := haversineA lat1 lon1 lat2 lon2
  let c := 2 * Real.arcsin (Real.sqrt a)
  c * 3958.8

/-! ### Vessel records and the change detector -/

/-- A vessel record as consumed by the change-detection loop of `main`
in `src/scripts/main.py`: `vessel['name']` must exist, coordinates are
read with `vessel.get` and may be absent. -/
structure Vessel where
  name : String
  lat : Option ℝ
  lon : Option ℝ

/-- The dict comprehension of `main` in `src/scripts/main.py` building
`prev_positions`: vessel name to the pair of optional coordinates, a
repeated name keeping its last record. -/
def prevPositions (previous_data : List Vessel) : String → Option (Option ℝ × Option ℝ) :=
  fun name =>
    match previous_data.reverse.find? (fun v => v.name == name) with
    | some v => some (v.lat, v.lon)
    | none => none

/-- The change-detection loop of `main` in `src/scripts/main.py`
(lines 104–119), over an arbitrary baseline mapping `pos` in place of
`prev_positions`: a vessel with both coordinates present is appended
when its name is absent from the baseline, or when the baseline has
both coordinates and the haversine distance exceeds 5 miles. -/
noncomputable def changedVesselNames
    (pos : String → Option (Option ℝ × Option ℝ)) : List Vessel → List String
  | [] => []
  | vessel :: rest =>
    let tail := changedVesselNames pos rest
    match vessel.lat, vessel.lon with
    | some current_lat, some current_lon =>
      match pos vessel.name with
      | some (prev_lat?, prev_lon?) =>
        match prev_lat?, prev_lon? with
        | some prev_lat, some prev_lon =>
          if haversine_distance prev_lat prev_lon current_lat current_lon > 5 then
            vessel.name :: tail
          else tail
        | _, _ => tail
      | none => vessel.name :: tail
    | _, _ => tail

/-! ### Timeline state: the `st.session_state` protocol of
`src/scripts/main.py` (lines 91–124) -/

/-- The two session-state slots of `src/scripts/main.py`. -/
structure TimelineState where
  prev_vessel_data : List Vessel
  prev_index : Nat

/-- One render of `main` in `src/scripts/main.py`, session-state part:
given the state before the render (`none` on the first run), the
selected slider index and the vessel list loaded for it, produce the
state after the render and `changed_vessel_names`. -/
noncomputable def timelineUpdate (st : Option TimelineState) (selected_index : Nat)
    (vessels : List Vessel) : TimelineState × List String :=
  match st with
  | none => (⟨vessels, selected_index⟩, [])
  | some s =>
    if s.prev_index ≠ selected_index then
      (⟨vessels, selected_index⟩,
        changedVesselNames (prevPositions s.prev_vessel_data) vessels)
    else
      (s, [])

/-- A sequence of renders starting from a given state: fold
`timelineUpdate` over the selected indices in order, loading each
index's vessels through `snap`; returns the final state and the changed
names of the last render. -/
noncomputable def runTimelineFrom (snap : Nat → List Vessel)
    (st : Option TimelineState) (changed : List String) :
    List Nat → Option TimelineState × List String
  | [] => (st, changed)
  | i :: rest =>
    let r := timelineUpdate st i (snap i)
    runTimelineFrom snap (some r.1) r.2 rest

/-- A sequence of renders of a fresh session. -/
noncomputable def runTimeline (snap : Nat → List Vessel) (selections : List Nat) :
    Option TimelineState × List String :=
  runTimelineFrom snap none [] selections

/-! ### Auto-advance step of `src/scripts/main_deepseek.py`
(`main`, lines 160–167) -/

/-- One pass of the auto-play block at the end of `main` in
`src/scripts/main_deepseek.py`: when `playing` is set and there are
data files, either advance `current_file_idx` by one (when below the
last index) or stop playing; returns the new
(`current_file_idx`, `playing`) pair. -/
def autoAdvance (numFiles : Nat) (current_file_idx : Nat) (playing : Bool) :
    Nat × Bool :=
  if playing ∧ numFiles ≠ 0 then
    if current_file_idx < numFiles - 1 then
      (current_file_idx + 1, playing)
    else
      (current_file_idx, false)
  else
    (current_file_idx, playing)

/-! ## Theorems -/

/-- After any render, the stored index is the index just selected. -/
theorem timelineUpdate_prev_index (st : Option TimelineState) (i : Nat)
    (vessels : List Vessel) : ((timelineUpdate st i vessels).1).prev_index = i := by
  match st with
  | none => rfl
  | some s =>
    by_cases h : s.prev_index ≠ i
    · simp [timelineUpdate, h]
    · push_neg at h
      simp [timelineUpdate, h]

/-- C10: in the play/pause variant, the auto-advance step increments
`current_file_idx` when it is below `len(DATA_FILES) - 1`, and at the
last index leaves it unchanged and clears `playing`; consequently the
index never leaves `[0, len(DATA_FILES) - 1]`. -/
theorem autoAdvance_stays_in_range (n idx : Nat) (p : Bool) :
    (p = true → n ≠ 0 → idx < n - 1 → autoAdvance n idx p = (idx + 1, p)) ∧
    (p = true → n ≠ 0 → ¬ idx < n - 1 → autoAdvance n idx p = (idx, false)) ∧
    (idx ≤ n - 1 → (autoAdvance n idx p).1 ≤ n - 1) := by
  refine ⟨fun hp hn hlt => ?_, fun hp hn hge => ?_, fun hle => ?_⟩
  · simp [autoAdvance, hp, hn, hlt]
  · simp [autoAdvance, hp, hn, hge]
  · unfold autoAdvance
    split_ifs with h1 h2 <;> simp <;> omega

/-- Closed instance of `autoAdvance_stays_in_range`. -/
theorem autoAdvance_stays_in_range_witness :
    autoAdvance 3 1 true = (2, true) ∧ autoAdvance 3 2 true = (2, false) := by
  refine ⟨(autoAdvance_stays_in_range 3 1 true).1 rfl ?_ ?_,
    (autoAdvance_stays_in_range 3 2 true).2.1 rfl ?_ ?_⟩ <;> decide

/-- C2: on the first render the changed set is empty and the current
snapshot becomes the stored baseline; on a later render whose selected
index differs from the stored one, the changed set is computed from the
stored baseline (the last index actually viewed) and then baseline and
index are overwritten with the current selection; in particular,
selecting index 0 and then jumping straight to index 5 diffs against
index 0's positions. -/
theorem timelineUpdate_spec :
    (∀ (idx : Nat) (vessels : List Vessel),
      timelineUpdate none idx vessels = (⟨vessels, idx⟩, [])) ∧
    (∀ (s : TimelineState) (idx : Nat) (vessels : List Vessel),
      s.prev_index ≠ idx →
      timelineUpdate (some s) idx vessels =
        (⟨vessels, idx⟩, changedVesselNames (prevPositions s.prev_vessel_data) vessels)) ∧
    (∀ snap : Nat → List Vessel,
      (runTimeline snap [0, 5]).2 =
        changedVesselNames (prevPositions (snap 0)) (snap 5)) := by
  refine ⟨fun idx vessels => rfl, fun s idx vessels h => ?_, fun snap => ?_⟩
  · simp [timelineUpdate, h]
  · simp [runTimeline, runTimelineFrom, timelineUpdate]

/-- Closed instance of `timelineUpdate_spec`. -/
theorem timelineUpdate_spec_witness :
    timelineUpdate (some ⟨[], 0⟩) 1 [] =
      (⟨[], 1⟩, changedVesselNames (prevPositions []) []) :=
  timelineUpdate_spec.2.1 ⟨[], 0⟩ 1 [] (by decide)

/-- C3: a render whose selected index equals the stored index produces
an empty changed set and leaves the stored state untouched, so two
consecutive renders with the same index give an empty changed set the
second time. -/
theorem timelineUpdate_same_index :
    (∀ (s : TimelineState) (vessels : List Vessel),
      timelineUpdate (some s) s.prev_index vessels = (s, [])) ∧
    (∀ (st : Option TimelineState) (i : Nat) (v1 v2 : List Vessel),
      (timelineUpdate (some (timelineUpdate st i v1).1) i v2).2 = []) := by
  constructor
  · intro s vessels
    simp [timelineUpdate]
  · intro st i v1 v2
    generalize hq : (timelineUpdate st i v1).1 = s1
    have h : s1.prev_index = i := hq ▸ timelineUpdate_prev_index st i v1
    simp [timelineUpdate, h]

/-- The condition under which the change-detection loop appends the
name of one vessel record. -/
def changedCond (pos : String → Option (Option ℝ × Option ℝ)) (v : Vessel) : Prop :=
  ∃ la lo, v.lat = some la ∧ v.lon = some lo ∧
    (pos v.name = none ∨
      ∃ pla plo, pos v.name = some (some pla, some plo) ∧
        haversine_distance pla plo la lo > 5)

/-- Membership in `changedVesselNames`: a name is appended exactly when
some current vessel carries it and satisfies the changed condition. -/
theorem mem_changedVesselNames (pos : String → Option (Option ℝ × Option ℝ))
    (current : List Vessel) (name : String) :
    name ∈ changedVesselNames pos current ↔
      ∃ v ∈ current, v.name = name ∧ changedCond pos v := by
  induction current with
  | nil => simp [changedVesselNames]
  | cons v rest ih =>
    rcases hla : v.lat with _ | la
    · simp only [changedVesselNames, hla]
      rw [ih]
      simp [changedCond, hla]
    · rcases hlo : v.lon with _ | lo
      · simp only [changedVesselNames, hla, hlo]
        rw [ih]
        simp [changedCond, hla, hlo]
      · rcases hpos : pos v.name with _ | ⟨pla?, plo?⟩
        · simp only [changedVesselNames, hla, hlo, hpos]
          simp only [List.mem_cons, ih]
          constructor
          · rintro (rfl | ⟨w, hw, hwn, hc⟩)
            · exact ⟨v, Or.inl rfl, rfl, la, lo, hla, hlo, Or.inl hpos⟩
            · exact ⟨w, Or.inr hw, hwn, hc⟩
          · rintro ⟨w, (rfl | hw), hwn, hc⟩
            · exact Or.inl hwn.symm
            · exact Or.inr ⟨w, hw, hwn, hc⟩
        · rcases pla? with _ | pla
          · simp only [changedVesselNames, hla, hlo, hpos]
            rw [ih]
            simp only [List.mem_cons]
            constructor
            · rintro ⟨w, hw, hwn, hc⟩
              exact ⟨w, Or.inr hw, hwn, hc⟩
            · rintro ⟨w, (rfl | hw), hwn, hc⟩
              · rcases hc with ⟨la', lo', _, _, (hbad | ⟨pla', plo', hbad, _⟩)⟩
                · rw [hpos] at hbad; cases hbad
                · rw [hpos] at hbad
                  cases hbad
              · exact ⟨w, hw, hwn, hc⟩
          · rcases plo? with _ | plo
            · simp only [changedVesselNames, hla, hlo, hpos]
              rw [ih]
              simp only [List.mem_cons]
              constructor
              · rintro ⟨w, hw, hwn, hc⟩
                exact ⟨w, Or.inr hw, hwn, hc⟩
              · rintro ⟨w, (rfl | hw), hwn, hc⟩
                · rcases hc with ⟨la', lo', _, _, (hbad | ⟨pla', plo', hbad, _⟩)⟩
                  · rw [hpos] at hbad; cases hbad
                  · rw [hpos] at hbad
                    cases hbad
                · exact ⟨w, hw, hwn, hc⟩
            · by_cases hd : haversine_distance pla plo la lo > 5
              · simp only [changedVesselNames, hla, hlo, hpos, if_pos hd]
                simp only [List.mem_cons, ih]
                constructor
                · rintro (rfl | ⟨w, hw, hwn, hc⟩)
                  · exact ⟨v, Or.inl rfl, rfl, la, lo, hla, hlo,
                      Or.inr ⟨pla, plo, hpos, hd⟩⟩
                  · exact ⟨w, Or.inr hw, hwn, hc⟩
                · rintro ⟨w, (rfl | hw), hwn, hc⟩
                  · exact Or.inl hwn.symm
                  · exact Or.inr ⟨w, hw, hwn, hc⟩
              · simp only [changedVesselNames, hla, hlo, hpos, if_neg hd]
                rw [ih]
                simp only [List.mem_cons]
                constructor
                · rintro ⟨w, hw, hwn, hc⟩
                  exact ⟨w, Or.inr hw, hwn, hc⟩
                · rintro ⟨w, (rfl | hw), hwn, hc⟩
                  · rcases hc with ⟨la', lo', hla', hlo', (hbad | ⟨pla', plo', hbad, hd'⟩)⟩
                    · rw [hpos] at hbad; cases hbad
                    · rw [hpos] at hbad
                      injection hbad with h2
                      injection h2 with h3 h4
                      injection h3 with h3
                      injection h4 with h4
                      subst h3; subst h4
                      rw [hla] at hla'; injection hla' with hla'
                      rw [hlo] at hlo'; injection hlo' with hlo'
                      subst hla'; subst hlo'
                      exact absurd hd' hd
                  · exact ⟨w, hw, hwn, hc⟩

/-- C1: for every baseline mapping and every current vessel list (names
unique within the snapshot, as the data model requires), a current
vessel with both coordinates present is in the changed set exactly when
its name is absent from the baseline, or the baseline has both
coordinates for the name and the haversine distance exceeds 5 miles;
and a current vessel missing a coordinate is never in the changed set. -/
theorem changedVesselNames_classification
    (pos : String → Option (Option ℝ × Option ℝ)) (current : List Vessel)
    (hnd : (current.map Vessel.name).Nodup) :
    (∀ v ∈ current, ∀ la lo, v.lat = some la → v.lon = some lo →
      (v.name ∈ changedVesselNames pos current ↔
        pos v.name = none ∨
          ∃ pla plo, pos v.name = some (some pla, some plo) ∧
            haversine_distance pla plo la lo > 5)) ∧
    (∀ v ∈ current, v.lat = none ∨ v.lon = none →
      v.name ∉ changedVesselNames pos current) := by
  have hinj := List.inj_on_of_nodup_map hnd
  constructor
  · intro v hv la lo hla hlo
    rw [mem_changedVesselNames]
    constructor
    · rintro ⟨w, hw, hwn, la', lo', hla', hlo', hcond⟩
      have hwv : w = v := hinj hw hv hwn
      subst hwv
      rw [hla] at hla'; injection hla' with e1
      rw [hlo] at hlo'; injection hlo' with e2
      subst e1; subst e2
      exact hcond
    · intro hcond
      exact ⟨v, hv, rfl, la, lo, hla, hlo, hcond⟩
  · rintro v hv hmiss hmem
    rw [mem_changedVesselNames] at hmem
    rcases hmem with ⟨w, hw, hwn, la', lo', hla', hlo', _⟩
    have hwv : w = v := hinj hw hv hwn
    subst hwv
    rcases hmiss with h | h
    · rw [h] at hla'; cases hla'
    · rw [h] at hlo'; cases hlo'

/-- Closed instance of `changedVesselNames_classification`: a vessel
with coordinates and a name absent from the baseline is changed. -/
theorem changedVesselNames_classification_witness :
    "A" ∈ changedVesselNames (fun _ => none) [⟨"A", some 0, some 0⟩] :=
  ((changedVesselNames_classification (fun _ => none) [⟨"A", some 0, some 0⟩]
      (by simp)).1 ⟨"A", some 0, some 0⟩ (by simp) 0 0 rfl rfl).mpr (Or.inl rfl)

/-- C9: every name in the changed set names some vessel of the current
snapshot; a vessel present only in the baseline is never reported. -/
theorem changed_names_from_current (pos : String → Option (Option ℝ × Option ℝ))
    (current : List Vessel) (name : String)
    (h : name ∈ changedVesselNames pos current) :
    ∃ v ∈ current, v.name = name := by
  rcases (mem_changedVesselNames pos current name).1 h with ⟨v, hv, hvn, _⟩
  exact ⟨v, hv, hvn⟩

/-- Closed instance of `changed_names_from_current`. -/
theorem changed_names_from_current_witness :
    ∃ v ∈ [(⟨"A", some 0, some 0⟩ : Vessel)], v.name = "A" :=
  changed_names_from_current (fun _ => none) [⟨"A", some 0, some 0⟩] "A"
    (by simp [changedVesselNames])

/-- Half-angle identity used to rewrite the haversine terms. -/
theorem sin_half_sq (d : ℝ) : Real.sin (d / 2) ^ 2 = 1 / 2 - Real.cos d / 2 := by
  rw [Real.sin_sq, Real.cos_sq]
  have h2 : 2 * (d / 2) = d := by ring
  rw [h2]
  ring

/-- The square-root argument of the haversine formula is one minus the
cosine of the central angle, halved. -/
theorem haversineA_eq (lat1 lon1 lat2 lon2 : ℝ) :
    haversineA lat1 lon1 lat2 lon2 =
      (1 - (Real.sin (radians lat1) * Real.sin (radians lat2) +
        Real.cos (radians lat1) * Real.cos (radians lat2) *
          Real.cos (radians lon2 - radians lon1))) / 2 := by
  unfold haversineA
  simp only
  rw [sin_half_sq, sin_half_sq, Real.cos_sub]
  ring

/-- The cosine of the angle between two unit vectors on the sphere lies
in `[-1, 1]`, for arbitrary real latitude and longitude inputs. -/
theorem dot_bounds (s1 c1 s2 c2 k : ℝ) (h1 : s1 ^ 2 + c1 ^ 2 = 1)
    (h2 : s2 ^ 2 + c2 ^ 2 = 1) (hk1 : -1 ≤ k) (hk2 : k ≤ 1) :
    -1 ≤ s1 * s2 + c1 * c2 * k ∧ s1 * s2 + c1 * c2 * k ≤ 1 := by
  have p1 : 0 ≤ (1 - k) * ((s1 - s2) ^ 2 + (c1 + c2) ^ 2) :=
    mul_nonneg (by linarith) (by positivity)
  have p2 : 0 ≤ (1 + k) * ((s1 - s2) ^ 2 + (c1 - c2) ^ 2) :=
    mul_nonneg (by linarith) (by positivity)
  have p3 : 0 ≤ (1 - k) * ((s1 + s2) ^ 2 + (c1 - c2) ^ 2) :=
    mul_nonneg (by linarith) (by positivity)
  have p4 : 0 ≤ (1 + k) * ((s1 + s2) ^ 2 + (c1 + c2) ^ 2) :=
    mul_nonneg (by linarith) (by positivity)
  constructor
  · nlinarith [p3, p4]
  · nlinarith [p1, p2]

/-- C7: for all real coordinates, including coincident and antipodal
points, the square-root argument of `haversine_distance` lies in
`[0, 1]` (so clamping it to `[0, 1]` changes nothing, the square root
is of a non-negative number and the inverse sine receives an argument
in its domain), and the returned distance is non-negative. -/
theorem haversine_distance_total_nonneg (lat1 lon1 lat2 lon2 : ℝ) :
    0 ≤ haversineA lat1 lon1 lat2 lon2 ∧
    haversineA lat1 lon1 lat2 lon2 ≤ 1 ∧
    max 0 (min 1 (haversineA lat1 lon1 lat2 lon2)) = haversineA lat1 lon1 lat2 lon2 ∧
    0 ≤ haversine_distance lat1 lon1 lat2 lon2 := by
  have hb := dot_bounds (Real.sin (radians lat1)) (Real.cos (radians lat1))
    (Real.sin (radians lat2)) (Real.cos (radians lat2))
    (Real.cos (radians lon2 - radians lon1))
    (Real.sin_sq_add_cos_sq _) (Real.sin_sq_add_cos_sq _)
    (Real.neg_one_le_cos _) (Real.cos_le_one _)
  have ha0 : 0 ≤ haversineA lat1 lon1 lat2 lon2 := by
    rw [haversineA_eq]; linarith [hb.2]
  have ha1 : haversineA lat1 lon1 lat2 lon2 ≤ 1 := by
    rw [haversineA_eq]; linarith [hb.1]
  refine ⟨ha0, ha1, ?_, ?_⟩
  · rw [min_eq_right ha1, max_eq_right ha0]
  · unfold haversine_distance
    simp only
    have harc : 0 ≤ Real.arcsin (Real.sqrt (haversineA lat1 lon1 lat2 lon2)) :=
      Real.arcsin_nonneg.mpr (Real.sqrt_nonneg _)
    have : (0:ℝ) ≤ 2 * Real.arcsin (Real.sqrt (haversineA lat1 lon1 lat2 lon2)) := by
      linarith
    nlinarith

/-- C8: the distance from a point to itself is zero, and the distance
function is symmetric in its two coordinate pairs. -/
theorem haversine_distance_refl_symm :
    (∀ la lo : ℝ, haversine_distance la lo la lo = 0) ∧
    (∀ la1 lo1 la2 lo2 : ℝ,
      haversine_distance la1 lo1 la2 lo2 = haversine_distance la2 lo2 la1 lo1) := by
  have hswap : ∀ u v : ℝ, Real.sin ((u - v) / 2) ^ 2 = Real.sin ((v - u) / 2) ^ 2 := by
    intro u v
    rw [show (u - v) / 2 = -((v - u) / 2) by ring, Real.sin_neg]
    ring
  have hA : ∀ a b c d : ℝ, haversineA a b c d = haversineA c d a b := by
    intro a b c d
    unfold haversineA
    simp only
    rw [hswap (radians c) (radians a), hswap (radians d) (radians b)]
    ring
  constructor
  · intro la lo
    unfold haversine_distance haversineA
    simp [sub_self]
  · intro la1 lo1 la2 lo2
    unfold haversine_distance
    simp only
    rw [hA]

/-- C4 counterexample: the loader of `src/scripts/main.py` raises
(`KeyError`, the error case) on the top-level shape
`{ vessels: [...] }` instead of returning the vessel list. -/
theorem load_vessel_data_vessels_shape_raises :
    load_vessel_data (some (JsonVal.obj [("vessels", JsonVal.arr [])])) =
      Except.error () := rfl

/-- C4 amended: the loader of `src/scripts/main_deepseek.py` returns
`{'vessels': []}` on a parse failure; returns the inner object for the
`{ data: { vessels: [...] } }` shape; returns the whole object for a
top-level object with a `vessels` key and no `data` key; and returns
`{'vessels': []}` for a top-level object with neither key — in every
case without raising. -/
theorem load_vessel_data_ds_tolerant :
    (load_vessel_data_ds none = emptyVessels) ∧
    (∀ (fields ds : List (String × JsonVal)),
      objHasKey fields "data" = true →
      objGetLast fields "data" = some (JsonVal.obj ds) →
      objHasKey ds "vessels" = true →
      load_vessel_data_ds (some (JsonVal.obj fields)) = JsonVal.obj ds) ∧
    (∀ fields : List (String × JsonVal),
      objHasKey fields "data" = false →
      objHasKey fields "vessels" = true →
      load_vessel_data_ds (some (JsonVal.obj fields)) = JsonVal.obj fields) ∧
    (∀ fields : List (String × JsonVal),
      objHasKey fields "data" = false →
      objHasKey fields "vessels" = false →
      load_vessel_data_ds (some (JsonVal.obj fields)) = emptyVessels) := by
  have hin : ∀ (fs : List (String × JsonVal)) (k : String),
      pyIn k (JsonVal.obj fs) = Except.ok (objHasKey fs k) := fun _ _ => rfl
  have hget : ∀ (fs : List (String × JsonVal)) (k : String),
      pyGetItem (JsonVal.obj fs) k =
        (match objGetLast fs k with
          | some w => Except.ok w
          | none => Except.error ()) := fun _ _ => rfl
  refine ⟨rfl, fun fields ds h1 h2 h3 => ?_, fun fields h1 h3 => ?_,
    fun fields h1 h3 => ?_⟩
  · simp [load_vessel_data_ds, loadBodyDS, hin, hget, h1, h2, h3, bind, Except.bind,
      pure, Except.pure]
  · simp [load_vessel_data_ds, loadBodyDS, hin, hget, h1, h3, bind, Except.bind,
      pure, Except.pure]
  · simp [load_vessel_data_ds, loadBodyDS, hin, hget, h1, h3, bind, Except.bind,
      pure, Except.pure]

/-- Closed instance of `load_vessel_data_ds_tolerant`. -/
theorem load_vessel_data_ds_tolerant_witness :
    load_vessel_data_ds
        (some (JsonVal.obj [("data", JsonVal.obj [("vessels", JsonVal.arr [])])])) =
      JsonVal.obj [("vessels", JsonVal.arr [])] :=
  load_vessel_data_ds_tolerant.2.1 [("data", JsonVal.obj [("vessels", JsonVal.arr [])])]
    [("vessels", JsonVal.arr [])] rfl rfl rfl

/-- C5: on a filename whose remainder does not match the timestamp
grammar, `get_timestamp_from_filename` of `src/scripts/main_deepseek.py`
silently returns the ambient current time instead of surfacing an
error: the parse fails, yet the caller receives `datetime.now()`. -/
theorem get_timestamp_from_filename_defaults :
    parseTimestampDS (removeTs (beforeFirstDot (afterLastUnderscore
        (basename "vessel_data_garbage.json")))) = none ∧
    get_timestamp_from_filename ⟨2026, 10, 12, 0, 0, 0, 0⟩
        "vessel_data_garbage.json" = ⟨2026, 10, 12, 0, 0, 0, 0⟩ :=
  ⟨rfl, rfl⟩

/-- The variant of `src/scripts/main.py` does surface the failure:
`get_datetime_from_filename` propagates the `strptime` error on a
non-matching remainder, and a successful result is always the parse of
the remainder, never a substituted default. -/
theorem get_datetime_from_filename_surfaces (file_path : String) :
    (parseTimestampMain (stripFixed file_path) = none →
      get_datetime_from_filename file_path = Except.error ()) ∧
    (∀ dt, get_datetime_from_filename file_path = Except.ok dt →
      parseTimestampMain (stripFixed file_path) = some dt) := by
  constructor
  · intro h
    unfold get_datetime_from_filename
    rw [h]
  · intro dt h
    unfold get_datetime_from_filename at h
    cases hp : parseTimestampMain (stripFixed file_path) with
    | none => rw [hp] at h; cases h
    | some d =>
      rw [hp] at h
      injection h with e
      rw [e]

/-- Closed instance of `get_datetime_from_filename_surfaces`. -/
theorem get_datetime_from_filename_surfaces_witness :
    get_datetime_from_filename "vessel_data_garbage.json" = Except.error () :=
  (get_datetime_from_filename_surfaces "vessel_data_garbage.json").1 rfl

/-- C6 counterexample: in the play/pause variant the snapshot list is
`sorted(glob(...))`, i.e. ordered by path string; with two filenames
whose fractional-second fields have different lengths the path order
disagrees with the parsed-timestamp order, so the resulting list is not
ascending in parsed timestamp. -/
theorem dataFiles_not_timestamp_sorted :
    (dataFiles ["vessel_data_20250408T14031212Z.json",
        "vessel_data_20250408T140312123Z.json"] =
      ["vessel_data_20250408T140312123Z.json",
        "vessel_data_20250408T14031212Z.json"]) ∧
    ((dataFiles ["vessel_data_20250408T14031212Z.json",
        "vessel_data_20250408T140312123Z.json"]).map
          (get_timestamp_from_filename ⟨2026, 10, 12, 0, 0, 0, 0⟩) =
      [⟨2025, 4, 8, 14, 3, 12, 123000⟩, ⟨2025, 4, 8, 14, 3, 12, 120000⟩]) ∧
    ¬ List.Sorted (fun a b => dtKey a ≤ dtKey b)
        ((dataFiles ["vessel_data_20250408T14031212Z.json",
            "vessel_data_20250408T140312123Z.json"]).map
          (get_timestamp_from_filename ⟨2026, 10, 12, 0, 0, 0, 0⟩)) := by
  have hmap : (dataFiles ["vessel_data_20250408T14031212Z.json",
      "vessel_data_20250408T140312123Z.json"]).map
        (get_timestamp_from_filename ⟨2026, 10, 12, 0, 0, 0, 0⟩) =
      [⟨2025, 4, 8, 14, 3, 12, 123000⟩, ⟨2025, 4, 8, 14, 3, 12, 120000⟩] := by decide
  refine ⟨by decide, hmap, fun h => ?_⟩
  rw [hmap] at h
  have hle := (List.sorted_cons.mp h).1 ⟨2025, 4, 8, 14, 3, 12, 120000⟩
    (List.mem_singleton.mpr rfl)
  simp [dtKey] at hle

/-- C6 amended: the slider variant (`src/scripts/main.py`) explicitly
sorts the discovered files by parsed timestamp, so whenever the
listing succeeds the timeline is ascending in timestamp regardless of
the order the filesystem returned the paths in. -/
theorem mainTimeline_sorted (file_paths : List String)
    (tl : List (PyDateTime × String)) (h : mainTimeline file_paths = Except.ok tl) :
    List.Sorted timelineLe tl := by
  unfold mainTimeline at h
  cases hm : file_paths.mapM (fun path => do
      let dt ← get_datetime_from_filename path
      pure (dt, path)) with
  | error e =>
    rw [hm] at h
    simp [Bind.bind, Except.bind] at h
  | ok tagged =>
    rw [hm] at h
    simp only [Bind.bind, Except.bind, pure, Except.pure] at h
    injection h with e
    rw [← e]
    exact List.sorted_insertionSort timelineLe tagged

/-- Closed instance of `mainTimeline_sorted`. -/
theorem mainTimeline_sorted_witness :
    List.Sorted timelineLe
      [(⟨2025, 4, 8, 14, 3, 12, 0⟩, "vessel_data_20250408T140312Z.json")] :=
  mainTimeline_sorted ["vessel_data_20250408T140312Z.json"]
    [(⟨2025, 4, 8, 14, 3, 12, 0⟩, "vessel_data_20250408T140312Z.json")] rfl

end FsruTimeline
